import Mathlib

/-!
Shallow embedding of the ShotLine social-network backend
(models.py, permissions.py, serializers.py, views.py, admin.py)
and proofs about its authorization, cascade, uniqueness and
geocoding-degradation behaviour.

Conventions of the embedding:
  * Django model rows become Lean structures; the relational store is a
    `Store` of row lists.
  * A request's user is `Option Subject` (`none` = AnonymousUser); Django
    model equality `request.user == obj.author` compares primary keys, so
    owners are stored as `Nat` ids and compared against `Subject.id`.
  * The geopy Nominatim client is an external collaborator, embedded as a
    `GeoOracle` parameter; each call either returns an optional result or
    raises one of the geopy exceptions (`GeoExc`).  In geopy's hierarchy
    `GeocoderTimedOut` and `GeocoderUnavailable` are both subclasses of
    `GeocoderServiceError`, so `except (GeocoderTimedOut,
    GeocoderServiceError)` in models.py catches every `GeoExc`, while
    `except GeocoderUnavailable` in serializers.py catches only
    `GeoExc.unavailable`.
  * A request pipeline is a function `... → Except ApiError Store`:
    DRF raises the exception before any store mutation in every modelled
    path, so `.error e` means the handler answered with `e` and the store
    is unchanged (`resultingState`).
  * Python truthiness that the source relies on is made explicit:
    `Decimal(0)` and the empty string are falsy (`truthyDec`, `truthyStr`).
-/

namespace ShotLine

/-- A Django auth user: primary key plus the `is_superuser` flag. -/
structure Subject where
  id : Nat
  isSuperuser : Bool
deriving DecidableEq, Repr

/-- models.py `Post`: author FK, text, optional location name and optional
decimal latitude/longitude (the `created_at` stamp plays no role in any
claim and is omitted). -/
structure Post where
  id : Nat
  author : Nat
  text : String
  locationName : Option String
  latitude : Option ℚ
  longitude : Option ℚ
deriving DecidableEq, Repr

/-- models.py `PostImage`: post FK and the opaque image payload.  Note the
model has neither an `author` nor a `user` field. -/
structure PostImage where
  id : Nat
  post : Nat
  image : String
deriving DecidableEq, Repr

/-- models.py `Like`: post FK and user FK, with
`unique_together = (post, user)` enforced by the storage layer. -/
structure Like where
  id : Nat
  post : Nat
  user : Nat
deriving DecidableEq, Repr

/-- models.py `Comment`: post FK, author FK and text. -/
structure Comment where
  id : Nat
  post : Nat
  author : Nat
  text : String
deriving DecidableEq, Repr

/-- The relational store holding all rows. -/
structure Store where
  posts : List Post
  images : List PostImage
  likes : List Like
  comments : List Comment
deriving DecidableEq, Repr

def findPost (st : Store) (pid : Nat) : Option Post :=
  st.posts.find? (fun p => p.id == pid)

def findImage (st : Store) (iid : Nat) : Option PostImage :=
  st.images.find? (fun i => i.id == iid)

def findLike (st : Store) (lid : Nat) : Option Like :=
  st.likes.find? (fun l => l.id == lid)

def findComment (st : Store) (cid : Nat) : Option Comment :=
  st.comments.find? (fun c => c.id == cid)

/-- Post.likes_count / PostSerializer.get_likes_count: recomputed on every
read from the stored Like rows. -/
def likes_count (st : Store) (pid : Nat) : Nat :=
  (st.likes.filter (fun l => l.post == pid)).length

/-- Fresh primary keys for inserted rows. -/
def nextPostId (st : Store) : Nat :=
  st.posts.foldr (fun p m => max p.id m) 0 + 1

def nextImageId (st : Store) : Nat :=
  st.images.foldr (fun i m => max i.id m) 0 + 1

def nextLikeId (st : Store) : Nat :=
  st.likes.foldr (fun l m => max l.id m) 0 + 1

def nextCommentId (st : Store) : Nat :=
  st.comments.foldr (fun c m => max c.id m) 0 + 1

/-- HTTP methods; DRF `SAFE_METHODS` is GET, HEAD, OPTIONS. -/
inductive Method
  | get
  | head
  | options
  | httpPost
  | put
  | patch
  | delete
deriving DecidableEq, Repr

def safeMethod : Method → Bool
  | .get => true
  | .head => true
  | .options => true
  | _ => false

/-- The geopy exceptions raised by Nominatim calls.  All three are
subclasses of `GeocoderServiceError`; only `unavailable` is an instance of
`GeocoderUnavailable`. -/
inductive GeoExc
  | timedOut
  | unavailable
  | otherService
deriving DecidableEq, Repr

/-- Outcome of one external geocoder call: a result (possibly empty) or a
raised geopy exception. -/
inductive GeoOutcome (α : Type)
  | ok (res : Option α)
  | exc (e : GeoExc)
deriving DecidableEq, Repr

/-- The external Nominatim collaborator: forward geocoding of a name and
reverse geocoding of a coordinate pair. -/
structure GeoOracle where
  geocode : String → GeoOutcome (ℚ × ℚ)
  reverse : ℚ → ℚ → GeoOutcome String

/-- Errors a request pipeline can answer with.  `validation` is DRF
`ValidationError` (HTTP 400) carrying its message, `permissionDenied` the
object-permission 403, `notFound` `Http404`, `integrityError` a database
constraint violation surfacing as a server error, `typeError` the Python
`TypeError` from an unexpected model kwarg, and `geopyException` an
uncaught geopy exception escaping the handler. -/
inductive ApiError
  | notAuthenticated
  | permissionDenied
  | validation (msg : String)
  | notFound
  | integrityError
  | typeError
  | geopyException (e : GeoExc)
deriving DecidableEq, Repr

/-- Which errors DRF reports as authorization failures (HTTP 401/403). -/
def isAuthorizationFailure : ApiError → Bool
  | .notAuthenticated => true
  | .permissionDenied => true
  | _ => false

/-- The store an erroring or succeeding pipeline leaves behind: every
modelled handler raises before mutating, so an error leaves the input
store in place. -/
def resultingState (st : Store) : Except ApiError Store → Store
  | .ok st' => st'
  | .error _ => st

/-- Python truthiness of an optional Decimal: `None` and `Decimal(0)` are
falsy. -/
def truthyDec : Option ℚ → Bool
  | none => false
  | some x => x != 0

/-- Python truthiness of an optional string: `None` and `""` are falsy. -/
def truthyStr : Option String → Bool
  | none => false
  | some s => s != ""

/-- Python `self.location_name or ''`. -/
def pyStrOrEmpty : Option String → String
  | none => ""
  | some s => if s == "" then "" else s

/-- models.py `get_coordinates`: geocode the name, returning `(None, None)`
when the service finds nothing or raises `GeocoderTimedOut` /
`GeocoderServiceError` (which covers every `GeoExc`). -/
def get_coordinates (g : GeoOracle) (name : String) : Option ℚ × Option ℚ :=
  match g.geocode name with
  | .ok (some (la, lo)) => (some la, some lo)
  | .ok none => (none, none)
  | .exc _ => (none, none)

/-- models.py `get_location_name`: reverse-geocode, returning `None` when
the service finds nothing or raises (same caught exception family). -/
def get_location_name (g : GeoOracle) (la lo : ℚ) : Option String :=
  match g.reverse la lo with
  | .ok (some a) => some a
  | .ok none => none
  | .exc _ => none

/-- models.py `Post.save`: when `location_name` is truthy and a coordinate
is missing, try forward geocoding and fill both coordinates only if the
lookup returned both; the save itself always proceeds. -/
def postSave (g : GeoOracle) (p : Post) : Post :=
  if truthyStr p.locationName && (p.latitude.isNone || p.longitude.isNone) then
    match get_coordinates g (p.locationName.getD "") with
    | (some la, some lo) => { p with latitude := some la, longitude := some lo }
    | _ => p
  else p

/-- models.py `Post.location_address`: when both coordinates are truthy try
reverse geocoding and return a truthy address; otherwise (or on lookup
failure) fall back to `location_name or ''`. -/
def location_address (g : GeoOracle) (p : Post) : String :=
  if truthyDec p.latitude && truthyDec p.longitude then
    match get_location_name g (p.latitude.getD 0) (p.longitude.getD 0) with
    | some a => if a == "" then pyStrOrEmpty p.locationName else a
    | none => pyStrOrEmpty p.locationName
  else pyStrOrEmpty p.locationName

/-- The serialized `location` value of PostSerializer.get_location. -/
structure LocationData where
  latitude : ℚ
  longitude : ℚ
  name : Option String
deriving DecidableEq, Repr

/-- serializers.py `PostSerializer.get_location`: a dict with the
coordinates (plus the truthy name) when both coordinates are truthy,
otherwise `None`. -/
def get_location (p : Post) : Option LocationData :=
  if truthyDec p.latitude && truthyDec p.longitude then
    some { latitude := p.latitude.getD 0
           longitude := p.longitude.getD 0
           name := if truthyStr p.locationName then p.locationName else none }
  else none

/-- The object a detail request addresses, for owner resolution. -/
inductive Entity
  | post (p : Post)
  | image (i : PostImage)
  | like (l : Like)
  | comment (c : Comment)
deriving DecidableEq, Repr

/-- Python `getattr(obj, "author", None)`. -/
def getattrAuthor : Entity → Option Nat
  | .post p => some p.author
  | .comment c => some c.author
  | _ => none

/-- Python `getattr(obj, "user", None)`. -/
def getattrUser : Entity → Option Nat
  | .like l => some l.user
  | _ => none

/-- The source's owner resolution
`getattr(obj, "author", None) or getattr(obj, "user", None)`
(a bound FK user object is always truthy). -/
def resolveOwner (e : Entity) : Option Nat :=
  match getattrAuthor e with
  | some a => some a
  | none => getattrUser e

/-- Python `author == request.user`: a resolved owner row equals the
request user exactly when both exist and share a primary key (`None` and
`AnonymousUser` compare unequal to every user row). -/
def ownerMatches (e : Entity) (ru : Option Subject) : Bool :=
  match resolveOwner e, ru with
  | some o, some s => o == s.id
  | _, _ => false

/-- permissions.py `IsAuthorOrReadOnly.has_object_permission`: safe
methods pass; a mutating method passes only when the resolved owner is
the request user.  There is no superuser branch. -/
def hasObjectPermission (m : Method) (ru : Option Subject) (e : Entity) : Bool :=
  if safeMethod m then true else ownerMatches e ru

/-- admin.py `PostAdmin.has_change_permission`: the list view is open;
a given post may be changed by a superuser or its author. -/
def has_change_permission (s : Subject) (obj : Option Post) : Bool :=
  match obj with
  | none => true
  | some p => s.isSuperuser || p.author == s.id

/-- admin.py `PostAdmin.has_delete_permission`: same rule as change. -/
def has_delete_permission (s : Subject) (obj : Option Post) : Bool :=
  match obj with
  | none => true
  | some p => s.isSuperuser || p.author == s.id

/-! ### Storage-layer inserts

Each insert enforces the database constraints Django declares: a foreign
key to an existing Post row, and for Like the `unique_together` pair. -/

def insertPostRow (st : Store) (p : Post) : Store :=
  { st with posts := st.posts ++ [p] }

def insertImageRow (st : Store) (i : PostImage) : Except ApiError Store :=
  if (findPost st i.post).isNone then .error .integrityError
  else .ok { st with images := st.images ++ [i] }

def insertLikeRow (st : Store) (l : Like) : Except ApiError Store :=
  if (findPost st l.post).isNone then .error .integrityError
  else if st.likes.any (fun k => k.post == l.post && k.user == l.user) then
    .error .integrityError
  else .ok { st with likes := st.likes ++ [l] }

def insertCommentRow (st : Store) (c : Comment) : Except ApiError Store :=
  if (findPost st c.post).isNone then .error .integrityError
  else .ok { st with comments := st.comments ++ [c] }

/-- Cascade produced by `post.delete()` under the three
`on_delete=CASCADE` foreign keys: the post and every Image, Like and
Comment row referencing it are removed in one transaction. -/
def cascadeDeletePost (st : Store) (pid : Nat) : Store :=
  { posts := st.posts.filter (fun p => p.id != pid)
    images := st.images.filter (fun i => i.post != pid)
    likes := st.likes.filter (fun l => l.post != pid)
    comments := st.comments.filter (fun c => c.post != pid) }

/-! ### Request pipelines (views.py)

Each pipeline follows the DRF generic-view order: `has_permission` checks
(`IsAuthenticatedOrReadOnly` / `IsAuthenticated`), object lookup with
`Http404`, `check_object_permissions`, serializer validation, then the
view's `perform_*` hook. -/

/-- views.py `PostList` POST (create): `IsAuthenticatedOrReadOnly`, then
`PostSerializer` validation and create with `author=request.user`.
The payload mirrors the serializer's writable channels: `text`,
`location_name`, the legacy single `image` field, `uploaded_images`, and
the raw multipart `request.FILES.getlist("images")` list that only the
image-presence checks consult. -/
structure PostPayload where
  text : String
  locationName : Option String
  image : Option String
  uploadedImages : List String
  filesImages : List String
deriving DecidableEq, Repr

/-- The image-presence test shared by `PostSerializer.validate` and
`PostSerializer.create`:
`uploaded_images or image or request.FILES.getlist("images")`. -/
def hasImages (pl : PostPayload) : Bool :=
  !pl.uploadedImages.isEmpty || pl.image.isSome || !pl.filesImages.isEmpty

/-- serializers.py `PostSerializer.create` (after `validate` passed),
called with `author=request.user` from `PostList.perform_create`:
  * re-checks the image-presence condition;
  * pops `location_name`; when truthy, forward-geocodes it inside
    `except GeocoderUnavailable` — a timeout or other service error
    propagates out of the handler; the popped name is restored into the
    row only when the lookup returns a location;
  * pops `uploaded_images`; the un-popped legacy `image` key reaches
    `Post.objects.create(**validated_data)` and raises `TypeError`;
  * creates the Post (running `Post.save`) and one `PostImage` row per
    element of `uploaded_images`.  `request.FILES.getlist("images")` is
    never persisted, and the trailing `if image:` branch is unreachable
    past the `TypeError`. -/
def postListCreate (g : GeoOracle) (st : Store) (ru : Option Subject)
    (pl : PostPayload) : Except ApiError Store :=
  match ru with
  | none => .error .notAuthenticated
  | some s =>
    if !hasImages pl then
      .error (.validation "К посту должно быть прикреплено хотя бы одно изображение")
    else
      let geo : Except ApiError (Option String × Option ℚ × Option ℚ) :=
        if truthyStr pl.locationName then
          match g.geocode (pl.locationName.getD "") with
          | .ok (some (la, lo)) => .ok (pl.locationName, some la, some lo)
          | .ok none => .ok (none, none, none)
          | .exc .unavailable => .ok (none, none, none)
          | .exc e => .error (.geopyException e)
        else .ok (none, none, none)
      match geo with
      | .error e => .error e
      | .ok (nameOut, la, lo) =>
        if pl.image.isSome then .error .typeError
        else
          let p := postSave g
            { id := nextPostId st, author := s.id, text := pl.text
              locationName := nameOut, latitude := la, longitude := lo }
          let st1 := insertPostRow st p
          .ok (pl.uploadedImages.foldl
            (fun acc img =>
              { acc with images :=
                  acc.images ++ [{ id := nextImageId acc, post := p.id, image := img }] })
            st1)

/-- views.py `PostDetail` GET: safe method, open to anonymous callers. -/
def postDetailRetrieve (st : Store) (pid : Nat) : Except ApiError Post :=
  match findPost st pid with
  | none => .error .notFound
  | some p => .ok p

/-- views.py `PostDetail` PUT: authentication, lookup,
`IsAuthorOrReadOnly` object check, `PostSerializer` validation (the image
requirement is skipped because `self.instance` is set), the
`AuthorCheckMixin.perform_update` author re-check, then save (which runs
`Post.save` and hence possibly forward geocoding). -/
def postDetailUpdate (g : GeoOracle) (st : Store) (ru : Option Subject)
    (pid : Nat) (newText : String) : Except ApiError Store :=
  match ru with
  | none => .error .notAuthenticated
  | some _ =>
    match findPost st pid with
    | none => .error .notFound
    | some p =>
      if !hasObjectPermission .put ru (.post p) then .error .permissionDenied
      else if !ownerMatches (.post p) ru then
        .error (.validation "Вы можете изменять только свои объекты")
      else
        let p' := postSave g { p with text := newText }
        .ok { st with posts := st.posts.map (fun q => if q.id == pid then p' else q) }

/-- views.py `PostDetail` DELETE: authentication, lookup, object check,
the `AuthorCheckMixin.perform_destroy` re-check, then the cascading
`instance.delete()`. -/
def postDetailDestroy (st : Store) (ru : Option Subject) (pid : Nat) :
    Except ApiError Store :=
  match ru with
  | none => .error .notAuthenticated
  | some _ =>
    match findPost st pid with
    | none => .error .notFound
    | some p =>
      if !hasObjectPermission .delete ru (.post p) then .error .permissionDenied
      else if !ownerMatches (.post p) ru then
        .error (.validation "Вы можете удалять только свои объекты")
      else .ok (cascadeDeletePost st pid)

/-- views.py `PostImageList` POST: `IsAuthenticatedOrReadOnly`, then
`perform_create`: a falsy `post_id` URL kwarg (absent or `0`) raises
`ValidationError`; otherwise the image is saved with that `post_id`
directly — no existence check, so a dangling id only fails at the
database foreign-key constraint. -/
def postImageListCreate (st : Store) (ru : Option Subject)
    (urlPid : Option Nat) (payload : String) : Except ApiError Store :=
  match ru with
  | none => .error .notAuthenticated
  | some _ =>
    match urlPid with
    | none => .error (.validation "post_id is required in URL")
    | some pid =>
      if pid == 0 then .error (.validation "post_id is required in URL")
      else insertImageRow st { id := nextImageId st, post := pid, image := payload }

/-- views.py `PostImageDetail` GET. -/
def imageDetailRetrieve (st : Store) (iid : Nat) : Except ApiError PostImage :=
  match findImage st iid with
  | none => .error .notFound
  | some i => .ok i

/-- views.py `PostImageDetail` PUT: a `PostImage` has no `author`/`user`
attribute, so `IsAuthorOrReadOnly` resolves the owner to `None` and the
object check fails for every request user. -/
def imageDetailUpdate (st : Store) (ru : Option Subject) (iid : Nat)
    (newImage : String) : Except ApiError Store :=
  match ru with
  | none => .error .notAuthenticated
  | some _ =>
    match findImage st iid with
    | none => .error .notFound
    | some i =>
      if !hasObjectPermission .put ru (.image i) then .error .permissionDenied
      else if !ownerMatches (.image i) ru then
        .error (.validation "Вы можете изменять только свои объекты")
      else
        .ok { st with images :=
          st.images.map (fun j => if j.id == iid then { j with image := newImage } else j) }

/-- views.py `PostImageDetail` DELETE (same dead owner resolution). -/
def imageDetailDestroy (st : Store) (ru : Option Subject) (iid : Nat) :
    Except ApiError Store :=
  match ru with
  | none => .error .notAuthenticated
  | some _ =>
    match findImage st iid with
    | none => .error .notFound
    | some i =>
      if !hasObjectPermission .delete ru (.image i) then .error .permissionDenied
      else if !ownerMatches (.image i) ru then
        .error (.validation "Вы можете удалять только свои объекты")
      else .ok { st with images := st.images.filter (fun j => j.id != iid) }

/-- views.py `LikeList` POST: `IsAuthenticated`; `LikeSerializer` first
validates the required body `post` primary key against existing posts;
`perform_create` then resolves the URL `post_id` with
`get_object_or_404`, rejects a duplicate (post, user) pair with
`ValidationError`, and saves with `user=request.user, post=post`. -/
def likeListCreate (st : Store) (ru : Option Subject)
    (urlPid bodyPid : Nat) : Except ApiError Store :=
  match ru with
  | none => .error .notAuthenticated
  | some s =>
    if (findPost st bodyPid).isNone then
      .error (.validation "Invalid pk - object does not exist.")
    else
      match findPost st urlPid with
      | none => .error .notFound
      | some _ =>
        if st.likes.any (fun k => k.post == urlPid && k.user == s.id) then
          .error (.validation "Вы уже поставили лайк этому посту")
        else insertLikeRow st { id := nextLikeId st, post := urlPid, user := s.id }

/-- views.py `LikeDetail` GET: `IsAuthenticated`, then lookup. -/
def likeDetailRetrieve (st : Store) (ru : Option Subject) (lid : Nat) :
    Except ApiError Like :=
  match ru with
  | none => .error .notAuthenticated
  | some _ =>
    match findLike st lid with
    | none => .error .notFound
    | some l => .ok l

/-- views.py `LikeDetail` PUT: `IsAuthenticated` only — no
`IsAuthorOrReadOnly` and no superuser branch.  Serializer validation of
the body `post` pk, then `perform_update` rejects
`instance.user != request.user` with `ValidationError`, then the save
moves the like to the body post subject to the unique constraint. -/
def likeDetailUpdate (st : Store) (ru : Option Subject) (lid bodyPid : Nat) :
    Except ApiError Store :=
  match ru with
  | none => .error .notAuthenticated
  | some s =>
    match findLike st lid with
    | none => .error .notFound
    | some l =>
      if (findPost st bodyPid).isNone then
        .error (.validation "Invalid pk - object does not exist.")
      else if l.user != s.id then
        .error (.validation "Вы можете изменять только свои лайки")
      else if st.likes.any (fun k => k.id != lid && k.post == bodyPid && k.user == l.user) then
        .error .integrityError
      else
        .ok { st with likes :=
          st.likes.map (fun k => if k.id == lid then { k with post := bodyPid } else k) }

/-- views.py `LikeDetail` DELETE: `perform_destroy` rejects
`instance.user != request.user` with `ValidationError`, else removes the
row (no cascade). -/
def likeDetailDestroy (st : Store) (ru : Option Subject) (lid : Nat) :
    Except ApiError Store :=
  match ru with
  | none => .error .notAuthenticated
  | some s =>
    match findLike st lid with
    | none => .error .notFound
    | some l =>
      if l.user != s.id then
        .error (.validation "Вы можете удалять только свои лайки")
      else .ok { st with likes := st.likes.filter (fun k => k.id != lid) }

/-- views.py `CommentList` POST: `IsAuthenticatedOrReadOnly`;
`CommentSerializer` validates the required body `post` pk; then
`perform_create` resolves the URL `post_id` with `get_object_or_404` and
saves with `author=request.user, post=post` (the URL post wins). -/
def commentListCreate (st : Store) (ru : Option Subject)
    (urlPid bodyPid : Nat) (text : String) : Except ApiError Store :=
  match ru with
  | none => .error .notAuthenticated
  | some s =>
    if (findPost st bodyPid).isNone then
      .error (.validation "Invalid pk - object does not exist.")
    else
      match findPost st urlPid with
      | none => .error .notFound
      | some _ =>
        insertCommentRow st
          { id := nextCommentId st, post := urlPid, author := s.id, text := text }

/-- views.py `CommentDetail` GET. -/
def commentDetailRetrieve (st : Store) (cid : Nat) : Except ApiError Comment :=
  match findComment st cid with
  | none => .error .notFound
  | some c => .ok c

/-- views.py `CommentDetail` PUT: authentication, lookup,
`IsAuthorOrReadOnly` object check, serializer validation of the body
`post` pk, the `AuthorCheckMixin` re-check, then save. -/
def commentDetailUpdate (st : Store) (ru : Option Subject)
    (cid bodyPid : Nat) (newText : String) : Except ApiError Store :=
  match ru with
  | none => .error .notAuthenticated
  | some _ =>
    match findComment st cid with
    | none => .error .notFound
    | some c =>
      if !hasObjectPermission .put ru (.comment c) then .error .permissionDenied
      else if (findPost st bodyPid).isNone then
        .error (.validation "Invalid pk - object does not exist.")
      else if !ownerMatches (.comment c) ru then
        .error (.validation "Вы можете изменять только свои объекты")
      else
        .ok { st with comments :=
          st.comments.map (fun d =>
            if d.id == cid then { d with post := bodyPid, text := newText } else d) }

/-- views.py `CommentDetail` DELETE. -/
def commentDetailDestroy (st : Store) (ru : Option Subject) (cid : Nat) :
    Except ApiError Store :=
  match ru with
  | none => .error .notAuthenticated
  | some _ =>
    match findComment st cid with
    | none => .error .notFound
    | some c =>
      if !hasObjectPermission .delete ru (.comment c) then .error .permissionDenied
      else if !ownerMatches (.comment c) ru then
        .error (.validation "Вы можете удалять только свои объекты")
      else .ok { st with comments := st.comments.filter (fun d => d.id != cid) }

/-! ### Concrete fixtures used by witnesses and counterexamples -/

def gNone : GeoOracle := { geocode := fun _ => .ok none, reverse := fun _ _ => .ok none }

def gAddr : GeoOracle :=
  { geocode := fun _ => .ok none, reverse := fun _ _ => .ok (some "10 Downing Street") }

def gTimeout : GeoOracle :=
  { geocode := fun _ => .exc .timedOut, reverse := fun _ _ => .exc .timedOut }

def gUnavailable : GeoOracle :=
  { geocode := fun _ => .exc .unavailable, reverse := fun _ _ => .ok none }

def uOne : Subject := { id := 1, isSuperuser := false }

def uTwo : Subject := { id := 2, isSuperuser := false }

def uRoot : Subject := { id := 9, isSuperuser := true }

def pOwned : Post :=
  { id := 1, author := 2, text := "t", locationName := some "Paris"
    latitude := none, longitude := none }

def stEmpty : Store := { posts := [], images := [], likes := [], comments := [] }

def stOne : Store :=
  { posts := [pOwned]
    images := [{ id := 1, post := 1, image := "f.jpg" }]
    likes := [{ id := 1, post := 1, user := 2 }]
    comments := [{ id := 1, post := 1, author := 2, text := "c" }] }

def pGeo : Post :=
  { id := 5, author := 1, text := "g", locationName := some "Paris"
    latitude := some 10, longitude := some 20 }

def pZero : Post :=
  { id := 6, author := 1, text := "z", locationName := some "Paris"
    latitude := some 0, longitude := some 3 }

/-! ### Helper lemmas -/

theorem ownerMatches_post (p : Post) (s : Subject) :
    ownerMatches (.post p) (some s) = (p.author == s.id) := rfl

theorem ownerMatches_comment (c : Comment) (s : Subject) :
    ownerMatches (.comment c) (some s) = (c.author == s.id) := rfl

theorem ownerMatches_like (l : Like) (s : Subject) :
    ownerMatches (.like l) (some s) = (l.user == s.id) := rfl

theorem ownerMatches_image (i : PostImage) (s : Subject) :
    ownerMatches (.image i) (some s) = false := rfl

/-! ### Claims -/

/-- C7: the `Post.location_address` read returns the reverse-geocoded
address when both coordinates are present (in the code's sense: stored
and nonzero, cf. C10) and the external lookup returns a nonempty address;
when coordinates are not present, or the lookup finds nothing or raises a
geocoder timeout/service error, it falls back to the stored
`location_name`, and to the empty string when that is also absent.  The
read is the pure function `location_address`: it produces a `String`, not
an error, for every oracle behaviour (the raised exception is absorbed by
`get_location_name`), and it takes and returns no store. -/
theorem location_display_fallback (g : GeoOracle) (p : Post) :
    (∀ a b s, p.latitude = some a → p.longitude = some b → a ≠ 0 → b ≠ 0 →
      g.reverse a b = .ok (some s) → s ≠ "" → location_address g p = s) ∧
    (∀ a b, p.latitude = some a → p.longitude = some b → a ≠ 0 → b ≠ 0 →
      (g.reverse a b = .ok none ∨ (∃ e, g.reverse a b = .exc e)) →
      location_address g p = pyStrOrEmpty p.locationName) ∧
    ((truthyDec p.latitude && truthyDec p.longitude) = false →
      location_address g p = pyStrOrEmpty p.locationName) ∧
    (p.locationName = none → pyStrOrEmpty p.locationName = "") := by
  refine ⟨?_, ?_, ?_, ?_⟩
  · intro a b s hla hlb ha hb hrev hs
    simp [location_address, truthyDec, hla, hlb, ha, hb, get_location_name, hrev, hs]
  · intro a b hla hlb ha hb hrev
    rcases hrev with hrev | ⟨e, hrev⟩ <;>
      simp [location_address, truthyDec, hla, hlb, ha, hb, get_location_name, hrev]
  · intro h
    simp [location_address, h]
  · intro h
    simp [pyStrOrEmpty, h]

/-- Witness for C7 at concrete inputs: with coordinates (10, 20) and an
oracle returning "10 Downing Street" the address is returned; with a
timing-out oracle the stored name "Paris" is returned. -/
theorem location_display_fallback_witness :
    location_address gAddr pGeo = "10 Downing Street" ∧
    location_address gTimeout pGeo = "Paris" :=
  ⟨(location_display_fallback gAddr pGeo).1 10 20 "10 Downing Street" rfl rfl
      (by decide) (by decide) rfl (by decide),
   (location_display_fallback gTimeout pGeo).2.1 10 20 rfl rfl
      (by decide) (by decide) (Or.inr ⟨.timedOut, rfl⟩)⟩

/-- C10: a Post whose stored latitude or longitude is exactly zero is
handled like one with absent coordinates: `location_address` performs no
reverse lookup (its value does not depend on the oracle) and returns the
stored name (empty string when absent), and the serialized `location`
field of `PostSerializer.get_location` is `None`. -/
theorem zero_coordinates_as_absent (g g' : GeoOracle) (p : Post)
    (h : p.latitude = some 0 ∨ p.longitude = some 0) :
    location_address g p = pyStrOrEmpty p.locationName ∧
    location_address g p = location_address g' p ∧
    get_location p = none := by
  have hfalse : (truthyDec p.latitude && truthyDec p.longitude) = false := by
    rcases h with h | h <;> simp [truthyDec, h]
  refine ⟨?_, ?_, ?_⟩
  · simp [location_address, hfalse]
  · simp [location_address, hfalse]
  · simp [get_location, hfalse]

/-- Witness for C10: `pZero` stores latitude exactly 0 and longitude 3;
the display read returns the stored name for any oracle and the
serialized location is `None`. -/
theorem zero_coordinates_as_absent_witness :
    location_address gAddr pZero = pyStrOrEmpty pZero.locationName ∧
    get_location pZero = none :=
  ⟨(zero_coordinates_as_absent gAddr gTimeout pZero (Or.inl rfl)).1,
   (zero_coordinates_as_absent gAddr gTimeout pZero (Or.inl rfl)).2.2⟩

/-- No two Like rows share a (post, user) pair. -/
def LikePairUnique (st : Store) : Prop :=
  st.likes.Pairwise (fun a b => a.post ≠ b.post ∨ a.user ≠ b.user)

/-- In a list whose elements have pairwise-distinct ids, an id determines
the element. -/
theorem distinct_ids_unique {α : Type} (f : α → Nat) (l : List α)
    (h : l.Pairwise (fun a b => f a ≠ f b)) :
    ∀ a ∈ l, ∀ b ∈ l, f a = f b → a = b := by
  induction l with
  | nil => simp
  | cons x xs ih =>
    intro a ha b hb hf
    rcases List.pairwise_cons.mp h with ⟨hx, hxs⟩
    rcases List.mem_cons.mp ha with rfl | ha' <;> rcases List.mem_cons.mp hb with rfl | hb'
    · rfl
    · exact absurd hf (hx b hb')
    · exact absurd hf.symm (hx a ha')
    · exact ih hxs a ha' b hb' hf

/-- C2: the (post, user) pair of Like rows is unique and duplicate
creation is rejected.  If the store satisfies the uniqueness invariant,
then (1) any successful `LikeList` create preserves it, and (2) when a
Like for (postId, userId) already exists, a second create for the same
pair fails with the duplicate-like error (the source's `ValidationError`
"Вы уже поставили лайк этому посту", the spec's `ConflictError`), the
store is left unchanged and the like count of the post is unchanged. -/
theorem like_unique_and_conflict (st : Store) (s : Subject) (urlPid bodyPid : Nat)
    (hu : LikePairUnique st) :
    (∀ st', likeListCreate st (some s) urlPid bodyPid = .ok st' → LikePairUnique st') ∧
    ((findPost st urlPid).isSome = true → (findPost st bodyPid).isSome = true →
      st.likes.any (fun k => k.post == urlPid && k.user == s.id) = true →
      likeListCreate st (some s) urlPid bodyPid =
        .error (.validation "Вы уже поставили лайк этому посту") ∧
      resultingState st (likeListCreate st (some s) urlPid bodyPid) = st ∧
      likes_count (resultingState st (likeListCreate st (some s) urlPid bodyPid)) urlPid =
        likes_count st urlPid) := by
  constructor
  · intro st' h
    unfold likeListCreate insertLikeRow at h
    cases hb : findPost st bodyPid with
    | none => simp [hb] at h
    | some q =>
      cases hurl : findPost st urlPid with
      | none => simp [hb, hurl] at h
      | some p =>
        by_cases hany : st.likes.any (fun k => k.post == urlPid && k.user == s.id) = true
        · simp [hb, hurl, hany] at h
        · rw [Bool.not_eq_true] at hany
          simp [hb, hurl, hany] at h
          subst h
          unfold LikePairUnique at hu ⊢
          simp only [List.pairwise_append, List.pairwise_cons, List.not_mem_nil,
            false_implies, implies_true, List.Pairwise.nil, true_and, and_true]
          refine ⟨hu, ?_⟩
          intro a ha b hb'
          simp only [List.mem_singleton] at hb'
          subst hb'
          by_cases hpost : a.post = urlPid
          · refine Or.inr ?_
            intro huser
            have : st.likes.any (fun k => k.post == urlPid && k.user == s.id) = true :=
              List.any_eq_true.mpr ⟨a, ha, by simp [hpost, huser]⟩
            simp [this] at hany
          · exact Or.inl hpost
  · intro hurl hbody hany
    obtain ⟨p, hp⟩ := Option.isSome_iff_exists.mp hurl
    obtain ⟨q, hq⟩ := Option.isSome_iff_exists.mp hbody
    have heq : likeListCreate st (some s) urlPid bodyPid =
        .error (.validation "Вы уже поставили лайк этому посту") := by
      unfold likeListCreate
      simp [hp, hq, hany]
    refine ⟨heq, ?_, ?_⟩ <;> rw [heq] <;> rfl


/-- Witness for C2: in `stOne` user 2 already likes post 1; a second
create for the pair (1, 2) yields the duplicate-like error. -/
theorem like_unique_and_conflict_witness :
    likeListCreate stOne (some uTwo) 1 1 =
      .error (.validation "Вы уже поставили лайк этому посту") :=
  ((like_unique_and_conflict stOne uTwo 1 1
      (by unfold LikePairUnique; decide)).2 (by decide) (by decide) (by decide)).1

/-- C3: deleting Post P cascades.  After `cascadeDeletePost` (the store
transition of `post.delete()` under the three `on_delete=CASCADE` keys,
performed by `PostDetail` DELETE on success, clause 5) no Image, Like or
Comment row referencing P remains and P itself is gone; a subsequent
retrieve of P, of any of its former images, and of any of its former
likes answers `Http404` (NotFoundError).  The id-distinctness hypotheses
are the primary-key property of the row lists. -/
theorem post_cascade_delete_complete (st : Store) (s : Subject) (pid : Nat)
    (himg : st.images.Pairwise (fun a b => a.id ≠ b.id))
    (hlik : st.likes.Pairwise (fun a b => a.id ≠ b.id)) :
    (∀ i ∈ (cascadeDeletePost st pid).images, i.post ≠ pid) ∧
    (∀ l ∈ (cascadeDeletePost st pid).likes, l.post ≠ pid) ∧
    (∀ c ∈ (cascadeDeletePost st pid).comments, c.post ≠ pid) ∧
    (∀ q ∈ (cascadeDeletePost st pid).posts, q.id ≠ pid) ∧
    (∀ p, findPost st pid = some p → p.author = s.id →
      postDetailDestroy st (some s) pid = .ok (cascadeDeletePost st pid)) ∧
    postDetailRetrieve (cascadeDeletePost st pid) pid = .error .notFound ∧
    (∀ i ∈ st.images, i.post = pid →
      imageDetailRetrieve (cascadeDeletePost st pid) i.id = .error .notFound) ∧
    (∀ l ∈ st.likes, l.post = pid →
      likeDetailRetrieve (cascadeDeletePost st pid) (some s) l.id = .error .notFound) := by
  refine ⟨?_, ?_, ?_, ?_, ?_, ?_, ?_, ?_⟩
  · intro i hi
    simp only [cascadeDeletePost, List.mem_filter, bne_iff_ne] at hi
    exact hi.2
  · intro l hl
    simp only [cascadeDeletePost, List.mem_filter, bne_iff_ne] at hl
    exact hl.2
  · intro c hc
    simp only [cascadeDeletePost, List.mem_filter, bne_iff_ne] at hc
    exact hc.2
  · intro q hq
    simp only [cascadeDeletePost, List.mem_filter, bne_iff_ne] at hq
    exact hq.2
  · intro p hp hauth
    unfold postDetailDestroy
    simp [hp, hasObjectPermission, safeMethod, ownerMatches_post, hauth]
  · unfold postDetailRetrieve findPost
    rw [List.find?_eq_none.mpr]
    intro q hq
    simp only [cascadeDeletePost, List.mem_filter, bne_iff_ne] at hq
    simpa using hq.2
  · intro i hi hip
    unfold imageDetailRetrieve findImage
    rw [List.find?_eq_none.mpr]
    intro j hj
    simp only [cascadeDeletePost, List.mem_filter, bne_iff_ne] at hj
    simp only [beq_iff_eq]
    intro hid
    have : j = i := distinct_ids_unique PostImage.id st.images himg j hj.1 i hi hid
    exact hj.2 (this ▸ hip)
  · intro l hl hlp
    unfold likeDetailRetrieve findLike
    rw [List.find?_eq_none.mpr]
    intro k hk
    simp only [cascadeDeletePost, List.mem_filter, bne_iff_ne] at hk
    simp only [beq_iff_eq]
    intro hid
    have : k = l := distinct_ids_unique Like.id st.likes hlik k hk.1 l hl hid
    exact hk.2 (this ▸ hlp)

/-- Witness for C3: deleting post 1 of `stOne` through the owner's
DELETE request cascades, and the former like row 1 is gone. -/
theorem post_cascade_delete_complete_witness :
    postDetailDestroy stOne (some uTwo) 1 = .ok (cascadeDeletePost stOne 1) ∧
    likeDetailRetrieve (cascadeDeletePost stOne 1) (some uTwo) 1 = .error .notFound :=
  ⟨(post_cascade_delete_complete stOne uTwo 1 (by decide) (by decide)).2.2.2.2.1
      pOwned rfl rfl,
   (post_cascade_delete_complete stOne uTwo 1 (by decide) (by decide)).2.2.2.2.2.2.2
      { id := 1, post := 1, user := 2 } (by decide) rfl⟩

/-- C5 counterexample: the API's authorization decision for a mutating
action grants no superuser override.  Subject 9 is a superuser, post
`pOwned` belongs to author 2, and `IsAuthorOrReadOnly` denies the update
and the delete — refuting "for every action the decision for a superuser
is Allow". -/
theorem superuser_api_mutation_denied_cex :
    uRoot.isSuperuser = true ∧
    hasObjectPermission .put (some uRoot) (.post pOwned) = false ∧
    hasObjectPermission .delete (some uRoot) (.post pOwned) = false := by
  decide

/-- C5 amended: the superuser override exists only in the admin
component.  A superuser may change and delete any Post through
`PostAdmin.has_change_permission` / `has_delete_permission`, but the API
never consults superuser status on mutation: a superuser who is not the
owner is denied update/delete on a Post, on a Comment, on every
PostImage (which has no owner field, so every subject is denied) by the
`IsAuthorOrReadOnly` object permission, and on a Like by `LikeDetail`'s
creator check (its update can never succeed and its delete answers the
only-your-own-likes `ValidationError` with the store unchanged). -/
theorem superuser_override_admin_only (s : Subject) (p : Post)
    (hsu : s.isSuperuser = true) :
    has_change_permission s (some p) = true ∧
    has_delete_permission s (some p) = true ∧
    has_change_permission s none = true ∧
    (p.author ≠ s.id →
      hasObjectPermission .put (some s) (.post p) = false ∧
      hasObjectPermission .delete (some s) (.post p) = false) ∧
    (∀ c : Comment, c.author ≠ s.id →
      hasObjectPermission .put (some s) (.comment c) = false ∧
      hasObjectPermission .delete (some s) (.comment c) = false) ∧
    (∀ i : PostImage,
      hasObjectPermission .put (some s) (.image i) = false ∧
      hasObjectPermission .delete (some s) (.image i) = false) ∧
    (∀ st lid l bodyPid, findLike st lid = some l → l.user ≠ s.id →
      (∀ st', likeDetailUpdate st (some s) lid bodyPid ≠ .ok st') ∧
      likeDetailDestroy st (some s) lid =
        .error (.validation "Вы можете удалять только свои лайки") ∧
      resultingState st (likeDetailDestroy st (some s) lid) = st) := by
  refine ⟨?_, ?_, rfl, ?_, ?_, ?_, ?_⟩
  · simp [has_change_permission, hsu]
  · simp [has_delete_permission, hsu]
  · intro hne
    constructor <;>
      simp [hasObjectPermission, safeMethod, ownerMatches_post, hne]
  · intro c hne
    constructor <;>
      simp [hasObjectPermission, safeMethod, ownerMatches_comment, hne]
  · intro i
    constructor <;>
      simp [hasObjectPermission, safeMethod, ownerMatches_image]
  · intro st lid l bodyPid hl hne
    have hbt : (l.user != s.id) = true := by simpa using hne
    have hdel : likeDetailDestroy st (some s) lid =
        .error (.validation "Вы можете удалять только свои лайки") := by
      unfold likeDetailDestroy
      simp [hl, hbt]
    refine ⟨?_, hdel, by rw [hdel]; rfl⟩
    intro st' h
    unfold likeDetailUpdate at h
    by_cases hb : (findPost st bodyPid).isNone
    · simp [hl, hb] at h
    · simp [hl, hb, hbt] at h

/-- Witness for C5 at concrete inputs: superuser 9 may change post 1 in
the admin, but through the API it is denied the post update, the comment
delete, the image update, and the like delete of `stOne`. -/
theorem superuser_override_admin_only_witness :
    has_change_permission uRoot (some pOwned) = true ∧
    hasObjectPermission .put (some uRoot) (.post pOwned) = false ∧
    hasObjectPermission .delete (some uRoot)
      (.comment { id := 1, post := 1, author := 2, text := "c" }) = false ∧
    hasObjectPermission .put (some uRoot)
      (.image { id := 1, post := 1, image := "f.jpg" }) = false ∧
    likeDetailDestroy stOne (some uRoot) 1 =
      .error (.validation "Вы можете удалять только свои лайки") :=
  ⟨(superuser_override_admin_only uRoot pOwned rfl).1,
   ((superuser_override_admin_only uRoot pOwned rfl).2.2.2.1 (by decide)).1,
   ((superuser_override_admin_only uRoot pOwned rfl).2.2.2.2.1
      { id := 1, post := 1, author := 2, text := "c" } (by decide)).2,
   ((superuser_override_admin_only uRoot pOwned rfl).2.2.2.2.2.1
      { id := 1, post := 1, image := "f.jpg" }).1,
   ((superuser_override_admin_only uRoot pOwned rfl).2.2.2.2.2.2
      stOne 1 { id := 1, post := 1, user := 2 } 1 rfl (by decide)).2.1⟩

/-- C9: a `LikeDetail` update or delete succeeds exactly when the request
user is the like's creator; the check is `instance.user !=
request.user` with no superuser branch, so it applies verbatim to
superusers (`s` ranges over all subjects, and clause 3 spells out the
rejection for any subject who is not the creator — superuser or not —
with the like and the whole store left unchanged). -/
theorem like_mutation_creator_only (st : Store) (s : Subject) (lid bodyPid : Nat)
    (l : Like) (hl : findLike st lid = some l)
    (hbp : (findPost st bodyPid).isSome = true)
    (hnoc : st.likes.any
      (fun k => k.id != lid && k.post == bodyPid && k.user == l.user) = false) :
    ((∃ st', likeDetailUpdate st (some s) lid bodyPid = .ok st') ↔ s.id = l.user) ∧
    ((∃ st', likeDetailDestroy st (some s) lid = .ok st') ↔ s.id = l.user) ∧
    (s.id ≠ l.user →
      likeDetailUpdate st (some s) lid bodyPid =
        .error (.validation "Вы можете изменять только свои лайки") ∧
      likeDetailDestroy st (some s) lid =
        .error (.validation "Вы можете удалять только свои лайки") ∧
      resultingState st (likeDetailUpdate st (some s) lid bodyPid) = st ∧
      resultingState st (likeDetailDestroy st (some s) lid) = st) := by
  obtain ⟨q, hq⟩ := Option.isSome_iff_exists.mp hbp
  refine ⟨?_, ?_, ?_⟩
  · constructor
    · rintro ⟨st', h⟩
      unfold likeDetailUpdate at h
      by_cases hus : l.user = s.id
      · exact hus.symm
      · simp [hl, hq, hus] at h
    · intro hs
      have husf : (l.user != s.id) = false := by simp [hs]
      unfold likeDetailUpdate
      simp [hl, hq, husf, hnoc]
  · constructor
    · rintro ⟨st', h⟩
      unfold likeDetailDestroy at h
      by_cases hus : l.user = s.id
      · exact hus.symm
      · simp [hl, hus] at h
    · intro hs
      unfold likeDetailDestroy
      simp [hl, hs.symm]
  · intro hne
    have hne' : l.user ≠ s.id := fun h => hne h.symm
    have h1 : likeDetailUpdate st (some s) lid bodyPid =
        .error (.validation "Вы можете изменять только свои лайки") := by
      unfold likeDetailUpdate
      simp [hl, hq, hne']
    have h2 : likeDetailDestroy st (some s) lid =
        .error (.validation "Вы можете удалять только свои лайки") := by
      unfold likeDetailDestroy
      simp [hl, hne']
    refine ⟨h1, h2, ?_, ?_⟩ <;> first
      | (rw [h1]; rfl)
      | (rw [h2]; rfl)

/-- Witness for C9: the creator (user 2) can delete like 1 of `stOne`;
the superuser subject 9 is rejected with the like untouched. -/
theorem like_mutation_creator_only_witness :
    (∃ st', likeDetailDestroy stOne (some uTwo) 1 = .ok st') ∧
    likeDetailDestroy stOne (some uRoot) 1 =
      .error (.validation "Вы можете удалять только свои лайки") :=
  ⟨(like_mutation_creator_only stOne uTwo 1 1 { id := 1, post := 1, user := 2 }
      rfl (by decide) (by decide)).2.1.mpr rfl,
   ((like_mutation_creator_only stOne uRoot 1 1 { id := 1, post := 1, user := 2 }
      rfl (by decide) (by decide)).2.2 (by decide)).2.1⟩

/-- C1 counterexample: non-owner mutation is denied, but for a Like the
denial is not reported as an authorization failure.  Subject 1 (not a
superuser) deletes like 1 of `stOne`, owned by user 2: the request is
rejected with DRF `ValidationError` (HTTP 400) "Вы можете удалять только
свои лайки", which `isAuthorizationFailure` classifies as not an
authorization failure — refuting "the deny is reported as an
authorization failure with reason \"not owner\"" as stated. -/
theorem like_deny_not_authorization_cex :
    likeDetailDestroy stOne (some uOne) 1 =
      .error (.validation "Вы можете удалять только свои лайки") ∧
    isAuthorizationFailure (.validation "Вы можете удалять только свои лайки") = false := by
  constructor
  · rfl
  · rfl

/-- C1 amended: an update or delete request from an authenticated,
non-superuser subject S on an existing resource owned by T ≠ S (create
targets no existing resource and is vacuous here) is always denied and
the store is unchanged; for Post and Comment the denial comes from the
`IsAuthorOrReadOnly` object permission and is an authorization failure
(HTTP 403), for Like it is reported as a `ValidationError` instead, and a
`PostImage` carries no author/user field at all, so there every
authenticated mutation request — whatever the subject — is denied with
the authorization failure. -/
theorem non_owner_mutation_denied (g : GeoOracle) (st : Store) (s : Subject) (t : Nat)
    (_hsu : s.isSuperuser = false) (hne : t ≠ s.id) :
    (∀ pid p newText, findPost st pid = some p → p.author = t →
      postDetailUpdate g st (some s) pid newText = .error .permissionDenied ∧
      resultingState st (postDetailUpdate g st (some s) pid newText) = st) ∧
    (∀ pid p, findPost st pid = some p → p.author = t →
      postDetailDestroy st (some s) pid = .error .permissionDenied ∧
      resultingState st (postDetailDestroy st (some s) pid) = st) ∧
    (∀ cid c bodyPid newText, findComment st cid = some c → c.author = t →
      commentDetailUpdate st (some s) cid bodyPid newText = .error .permissionDenied ∧
      resultingState st (commentDetailUpdate st (some s) cid bodyPid newText) = st) ∧
    (∀ cid c, findComment st cid = some c → c.author = t →
      commentDetailDestroy st (some s) cid = .error .permissionDenied ∧
      resultingState st (commentDetailDestroy st (some s) cid) = st) ∧
    (∀ iid i newImg, findImage st iid = some i →
      imageDetailUpdate st (some s) iid newImg = .error .permissionDenied ∧
      resultingState st (imageDetailUpdate st (some s) iid newImg) = st) ∧
    (∀ iid i, findImage st iid = some i →
      imageDetailDestroy st (some s) iid = .error .permissionDenied ∧
      resultingState st (imageDetailDestroy st (some s) iid) = st) ∧
    (∀ lid l bodyPid, findLike st lid = some l → l.user = t →
      (findPost st bodyPid).isSome = true →
      likeDetailUpdate st (some s) lid bodyPid =
        .error (.validation "Вы можете изменять только свои лайки") ∧
      resultingState st (likeDetailUpdate st (some s) lid bodyPid) = st) ∧
    (∀ lid l, findLike st lid = some l → l.user = t →
      likeDetailDestroy st (some s) lid =
        .error (.validation "Вы можете удалять только свои лайки") ∧
      resultingState st (likeDetailDestroy st (some s) lid) = st) ∧
    isAuthorizationFailure .permissionDenied = true := by
  refine ⟨?_, ?_, ?_, ?_, ?_, ?_, ?_, ?_, rfl⟩
  · intro pid p newText hf hpa
    have hbf : (p.author == s.id) = false := by simp [hpa]; exact hne
    have heq : postDetailUpdate g st (some s) pid newText = .error .permissionDenied := by
      unfold postDetailUpdate
      simp [hf, hasObjectPermission, safeMethod, ownerMatches_post, hbf]
    exact ⟨heq, by rw [heq]; rfl⟩
  · intro pid p hf hpa
    have hbf : (p.author == s.id) = false := by simp [hpa]; exact hne
    have heq : postDetailDestroy st (some s) pid = .error .permissionDenied := by
      unfold postDetailDestroy
      simp [hf, hasObjectPermission, safeMethod, ownerMatches_post, hbf]
    exact ⟨heq, by rw [heq]; rfl⟩
  · intro cid c bodyPid newText hf hca
    have hbf : (c.author == s.id) = false := by simp [hca]; exact hne
    have heq : commentDetailUpdate st (some s) cid bodyPid newText =
        .error .permissionDenied := by
      unfold commentDetailUpdate
      simp [hf, hasObjectPermission, safeMethod, ownerMatches_comment, hbf]
    exact ⟨heq, by rw [heq]; rfl⟩
  · intro cid c hf hca
    have hbf : (c.author == s.id) = false := by simp [hca]; exact hne
    have heq : commentDetailDestroy st (some s) cid = .error .permissionDenied := by
      unfold commentDetailDestroy
      simp [hf, hasObjectPermission, safeMethod, ownerMatches_comment, hbf]
    exact ⟨heq, by rw [heq]; rfl⟩
  · intro iid i newImg hf
    have heq : imageDetailUpdate st (some s) iid newImg = .error .permissionDenied := by
      unfold imageDetailUpdate
      simp [hf, hasObjectPermission, safeMethod, ownerMatches_image]
    exact ⟨heq, by rw [heq]; rfl⟩
  · intro iid i hf
    have heq : imageDetailDestroy st (some s) iid = .error .permissionDenied := by
      unfold imageDetailDestroy
      simp [hf, hasObjectPermission, safeMethod, ownerMatches_image]
    exact ⟨heq, by rw [heq]; rfl⟩
  · intro lid l bodyPid hf hlu hbp
    obtain ⟨q, hq⟩ := Option.isSome_iff_exists.mp hbp
    have hbt : (l.user != s.id) = true := by simp [hlu]; exact hne
    have heq : likeDetailUpdate st (some s) lid bodyPid =
        .error (.validation "Вы можете изменять только свои лайки") := by
      unfold likeDetailUpdate
      simp [hf, hq, hbt]
    exact ⟨heq, by rw [heq]; rfl⟩
  · intro lid l hf hlu
    have hbt : (l.user != s.id) = true := by simp [hlu]; exact hne
    have heq : likeDetailDestroy st (some s) lid =
        .error (.validation "Вы можете удалять только свои лайки") := by
      unfold likeDetailDestroy
      simp [hf, hbt]
    exact ⟨heq, by rw [heq]; rfl⟩

/-- Witness for C1 amended, at concrete inputs in `stOne` (everything
owned by user 2, requested by non-superuser user 1): the post update is
denied with the 403 and the like delete with the `ValidationError`. -/
theorem non_owner_mutation_denied_witness :
    postDetailUpdate gNone stOne (some uOne) 1 "x" = .error .permissionDenied ∧
    likeDetailDestroy stOne (some uOne) 1 =
      .error (.validation "Вы можете удалять только свои лайки") :=
  ⟨((non_owner_mutation_denied gNone stOne uOne 2 rfl (by decide)).1
      1 pOwned "x" rfl rfl).1,
   ((non_owner_mutation_denied gNone stOne uOne 2 rfl (by decide)).2.2.2.2.2.2.2.1
      1 { id := 1, post := 1, user := 2 } rfl rfl).1⟩

/-- C6 counterexample: with no Post 7 in the store, creating an image
under post 7 fails at the database foreign-key constraint
(`IntegrityError`), not with `NotFoundError`; and creating a comment
under post 7 (body pk echoing the same post, the natural client call)
fails with the serializer's invalid-pk `ValidationError`, not
`NotFoundError` — refuting "each fail with NotFoundError whenever no
Post with id postId exists". -/
theorem image_create_missing_post_cex :
    postImageListCreate stEmpty (some uOne) (some 7) "f.jpg" = .error .integrityError ∧
    postImageListCreate stEmpty (some uOne) (some 7) "f.jpg" ≠ .error .notFound ∧
    commentListCreate stEmpty (some uOne) 7 7 "hi" =
      .error (.validation "Invalid pk - object does not exist.") ∧
    commentListCreate stEmpty (some uOne) 7 7 "hi" ≠ .error .notFound := by
  refine ⟨rfl, ?_, rfl, ?_⟩
  · intro h
    have h' : (Except.error ApiError.integrityError : Except ApiError Store) =
        .error .notFound := (rfl : postImageListCreate stEmpty (some uOne) (some 7)
          "f.jpg" = .error .integrityError).symm.trans h
    simp at h'
  · intro h
    have h' : (Except.error (ApiError.validation "Invalid pk - object does not exist.") :
        Except ApiError Store) = .error .notFound :=
      (rfl : commentListCreate stEmpty (some uOne) 7 7 "hi" =
        .error (.validation "Invalid pk - object does not exist.")).symm.trans h
    simp at h'

/-- C6 amended: when no Post with the given id exists, `PostImageList`
create performs no existence check and fails only at the foreign-key
constraint (`IntegrityError`), and `CommentList` create fails with the
serializer's invalid-pk `ValidationError` when the request body names the
same missing post — its `get_object_or_404` (`NotFoundError`) is reached
only when the body names some existing post while the URL post is
absent.  In every case no row is created. -/
theorem child_create_missing_post (st : Store) (s : Subject) (pid : Nat)
    (payload text : String) (hpz : pid ≠ 0) (hmiss : findPost st pid = none) :
    postImageListCreate st (some s) (some pid) payload = .error .integrityError ∧
    resultingState st (postImageListCreate st (some s) (some pid) payload) = st ∧
    commentListCreate st (some s) pid pid text =
      .error (.validation "Invalid pk - object does not exist.") ∧
    resultingState st (commentListCreate st (some s) pid pid text) = st ∧
    (∀ bodyPid, (findPost st bodyPid).isSome = true →
      commentListCreate st (some s) pid bodyPid text = .error .notFound ∧
      resultingState st (commentListCreate st (some s) pid bodyPid text) = st) := by
  have h1 : postImageListCreate st (some s) (some pid) payload = .error .integrityError := by
    unfold postImageListCreate insertImageRow
    simp [hpz, hmiss]
  have h2 : commentListCreate st (some s) pid pid text =
      .error (.validation "Invalid pk - object does not exist.") := by
    unfold commentListCreate
    simp [hmiss]
  refine ⟨h1, by rw [h1]; rfl, h2, by rw [h2]; rfl, ?_⟩
  intro bodyPid hbp
  obtain ⟨q, hq⟩ := Option.isSome_iff_exists.mp hbp
  have h3 : commentListCreate st (some s) pid bodyPid text = .error .notFound := by
    unfold commentListCreate
    simp [hq, hmiss]
  exact ⟨h3, by rw [h3]; rfl⟩

/-- Witness for C6 amended: the concrete absent post 7 over `stOne`
(post 1 exists, so the body pk 1 exposes the reachable 404 branch). -/
theorem child_create_missing_post_witness :
    postImageListCreate stOne (some uOne) (some 7) "f.jpg" = .error .integrityError ∧
    commentListCreate stOne (some uOne) 7 1 "hi" = .error .notFound :=
  ⟨(child_create_missing_post stOne uOne 7 "f.jpg" "hi" (by decide) rfl).1,
   ((child_create_missing_post stOne uOne 7 "f.jpg" "hi" (by decide) rfl).2.2.2.2
      1 (by decide)).1⟩

/-- The fully-empty and the files-channel-only create payloads. -/
def emptyImagesPayload : PostPayload :=
  { text := "hello", locationName := none, image := none
    uploadedImages := [], filesImages := [] }

def c4Payload : PostPayload :=
  { text := "hello", locationName := none, image := none
    uploadedImages := [], filesImages := ["f.jpg"] }

/-- C4, failing input: `PostSerializer.validate` counts images arriving
through the raw multipart channel `request.FILES.getlist("images")`
toward the at-least-one-image requirement, but `PostSerializer.create`
never persists that channel.  A create request with no image anywhere is
correctly rejected with the `ValidationError` (first conjunct), but a
request supplying exactly one image through the raw channel passes
validation and creates the Post with zero associated Image rows —
contradicting both "the created Post has exactly n associated Image
rows" and the validation's own documented purpose. -/
theorem post_create_files_channel_dropped :
    postListCreate gNone stEmpty (some uOne) emptyImagesPayload =
      .error (.validation "К посту должно быть прикреплено хотя бы одно изображение") ∧
    hasImages c4Payload = true ∧
    (∃ st', postListCreate gNone stEmpty (some uOne) c4Payload = .ok st' ∧
      st'.posts.length = 1 ∧ st'.images.length = 0) := by
  exact ⟨rfl, rfl, ⟨_, rfl, rfl, rfl⟩⟩

/-- The payload of the C8 scenario: a location name plus one properly
uploaded image. -/
def c8Payload : PostPayload :=
  { text := "hi", locationName := some "Paris", image := none
    uploadedImages := ["a.jpg"], filesImages := [] }

/-- C8 counterexample: on the serializer create path only
`GeocoderUnavailable` is caught.  With a location name supplied, no
coordinates, and the geocoder raising `GeocoderTimedOut`, the create
aborts with the uncaught geopy exception instead of completing — refuting
"if the external call fails (timeout or service error) ... the write
still completes successfully". -/
theorem post_create_geocode_timeout_aborts_cex :
    postListCreate gTimeout stEmpty (some uOne) c8Payload =
      .error (.geopyException .timedOut) ∧
    ¬ ∃ st', postListCreate gTimeout stEmpty (some uOne) c8Payload = .ok st' := by
  constructor
  · rfl
  · rintro ⟨st', h⟩
    have h' : (Except.ok st' : Except ApiError Store) =
        .error (.geopyException .timedOut) :=
      h.symm.trans
        (rfl : postListCreate gTimeout stEmpty (some uOne) c8Payload =
          .error (.geopyException .timedOut))
    simp at h'

/-- A fold that only appends image rows does not change the post rows. -/
theorem foldl_images_posts (l : List String) (pid : Nat) (acc : Store) :
    (l.foldl (fun acc img =>
      { acc with images :=
          acc.images ++ [{ id := nextImageId acc, post := pid, image := img }] })
      acc).posts = acc.posts := by
  induction l generalizing acc with
  | nil => rfl
  | cons x xs ih => simp [List.foldl_cons, ih]

/-- C8 amended: on the model-save path (`Post.save`, used by direct model
writes such as the admin), a geocoder timeout/service error or an empty
lookup is absorbed and the save completes with coordinates left unset.
On the API serializer path only `GeocoderUnavailable` degrades
gracefully: the create then still succeeds, with every newly created post
carrying no coordinates (and, beyond the claim, the supplied location
name is dropped because the popped name is only restored on geocoding
success); a timeout or other service error instead aborts the create
(see the counterexample). -/
theorem forward_geocoding_degrades (g : GeoOracle) (p : Post) (st : Store) (s : Subject)
    (pl : PostPayload) :
    (truthyStr p.locationName = true → (p.latitude.isNone || p.longitude.isNone) = true →
      ((∃ e, g.geocode (p.locationName.getD "") = .exc e) ∨
        g.geocode (p.locationName.getD "") = .ok none) →
      postSave g p = p) ∧
    (truthyStr pl.locationName = true → hasImages pl = true → pl.image = none →
      g.geocode (pl.locationName.getD "") = .exc .unavailable →
      ∃ st', postListCreate g st (some s) pl = .ok st' ∧
        ∀ q ∈ st'.posts, q ∈ st.posts ∨
          (q.latitude = none ∧ q.longitude = none ∧ q.locationName = none)) := by
  constructor
  · intro ht hmissing hfail
    unfold postSave get_coordinates
    rcases hfail with ⟨e, hg⟩ | hg <;> simp [ht, hmissing, hg]
  · intro ht hi hnone hg
    unfold postListCreate
    simp only [hi, hg, ht, hnone, Bool.not_true, Bool.false_eq_true, if_false, if_true,
      Option.isSome_none]
    refine ⟨_, rfl, ?_⟩
    intro q hq
    rw [foldl_images_posts] at hq
    simp only [insertPostRow, List.mem_append, List.mem_singleton] at hq
    rcases hq with hq | hq
    · exact Or.inl hq
    · subst hq
      simp [postSave, truthyStr]

/-- Witness for C8 amended: a timing-out geocoder leaves `pOwned`
untouched on the model-save path, and with an unavailable geocoder the
API create of `c8Payload` still succeeds with no coordinates set. -/
theorem forward_geocoding_degrades_witness :
    postSave gTimeout pOwned = pOwned ∧
    ∃ st', postListCreate gUnavailable stEmpty (some uOne) c8Payload = .ok st' ∧
      ∀ q ∈ st'.posts, q ∈ stEmpty.posts ∨
        (q.latitude = none ∧ q.longitude = none ∧ q.locationName = none) :=
  ⟨(forward_geocoding_degrades gTimeout pOwned stEmpty uOne c8Payload).1 (by decide) rfl
      (Or.inl ⟨.timedOut, rfl⟩),
   (forward_geocoding_degrades gUnavailable pOwned stEmpty uOne c8Payload).2 (by decide)
      rfl rfl rfl⟩

end ShotLine
